import Mathlib

/-!
Verification of SeleniumLibrary form/select keywords.

Shallow embedding of `src/SeleniumLibrary/keywords/selectelement.py` and
`src/SeleniumLibrary/keywords/formelement.py`.

A `<select>` element is modelled as an ordered list of options, each with a
`value` attribute, a visible `label` (text) and a `selected` flag, together
with the multiplicity flag of the list (`multiple`).  The external Selenium
`Select` wrapper operations (`select_by_index/value/visible_text`,
`deselect_by_value/visible_text`, `deselect_all`, `options`,
`all_selected_options`, `is_multiple`) are modelled with their documented
WebDriver semantics: selecting an option of a single-select list deselects
every other option, selecting on a multi-select list only marks the chosen
option, `select_by_value`/`select_by_visible_text` select all matching
options on a multi-select list and the first matching option on a
single-select list, and every operation reports a no-match outcome
(the Selenium `NoSuchElementException`) instead of silently doing nothing.

Keywords that log-and-raise are modelled as functions returning either an
`Except` value or a result structure carrying the final DOM state, the
warning messages logged, and the raised error (if any).  Logging at `info`
and `debug` level has no behavioural effect and is not modelled.
-/

set_option autoImplicit false
set_option linter.unusedVariables false

namespace SeleniumSpec

/-- A single quote character (used in the Python %-formatted messages). -/
def sq : String := String.singleton (Char.ofNat 39)

/-- One `<option>` element of a select list: its `value` attribute, its
visible text (label) and whether it is currently selected. -/
structure SelOption where
  value : String
  label : String
  selected : Bool
  deriving Repr, DecidableEq

/-- A `<select>` element: its ordered option list and its multiplicity flag
(`is_multiple` of the Selenium `Select` wrapper). -/
structure SelectList where
  options : List SelOption
  multiple : Bool
  deriving Repr, DecidableEq

/-- The Python builtin `any` on a list of strings: true iff some element is truthy,
i.e. a non-empty string (`""` is falsy in Python). -/
def pyAny (xs : List String) : Bool :=
  xs.any (fun s => !s.isEmpty)

/-- The Python comma-join of a list of strings. -/
def joinComma (xs : List String) : String :=
  String.intercalate ", " xs

/-- Mark the option at position `i` as selected, leaving the rest of the
list unchanged (the effect of the Selenium setSelected call on one option of a
multi-select list). -/
def markSel : List SelOption → Nat → List SelOption
  | [], _ => []
  | o :: os, 0 => { o with selected := true } :: os
  | o :: os, i + 1 => o :: markSel os i

/-- Deselect every option (the browser-side effect of selecting an option
of a single-select list on all the other options, and of `deselect_all`). -/
def clearSel : List SelOption → List SelOption
  | [] => []
  | o :: os => { o with selected := false } :: clearSel os

/-- Selenium `select_by_index`-style selection of position `i`: on a
multi-select list only option `i` becomes selected in addition to the
current selection; on a single-select list option `i` becomes the sole
selection. -/
def selectAt (sl : SelectList) (i : Nat) : SelectList :=
  if sl.multiple then { sl with options := markSel sl.options i }
  else { sl with options := markSel (clearSel sl.options) i }

/-- Indices of the options whose `value` attribute equals `v`. -/
def valueIndices (sl : SelectList) (v : String) : List Nat :=
  (List.range sl.options.length).filter
    (fun i => ((sl.options.get? i).map SelOption.value) = some v)

/-- Indices of the options whose visible text equals `t`. -/
def labelIndices (sl : SelectList) (t : String) : List Nat :=
  (List.range sl.options.length).filter
    (fun i => ((sl.options.get? i).map SelOption.label) = some t)

/-- Selenium `select_by_value`: select all options with the given `value`
attribute (only the first on a single-select list); `none` models the
`NoSuchElementException` raised when no option matches. -/
def selectByValue (sl : SelectList) (v : String) : Option SelectList :=
  match valueIndices sl v with
  | [] => none
  | i :: rest =>
      some (if sl.multiple then (i :: rest).foldl selectAt sl else selectAt sl i)

/-- Selenium `select_by_visible_text`: select all options with the given
visible text (only the first on a single-select list); `none` models the
`NoSuchElementException` raised when no option matches. -/
def selectByLabel (sl : SelectList) (t : String) : Option SelectList :=
  match labelIndices sl t with
  | [] => none
  | i :: rest =>
      some (if sl.multiple then (i :: rest).foldl selectAt sl else selectAt sl i)

/-- Selenium `deselect_by_value` on a multi-select list: deselect every
option whose `value` attribute equals `v`; the boolean reports whether any
option matched (`false` models the `NoSuchElementException` raised by
Selenium 2.52+ on no match, which the keyword swallows). -/
def deselectByValue (sl : SelectList) (v : String) : SelectList × Bool :=
  ({ sl with options := (sl.options.map
      (fun o => if o.value == v then { o with selected := false } else o)) },
   sl.options.any (fun o => o.value == v))

/-- Selenium `deselect_by_visible_text` on a multi-select list: deselect
every option whose visible text equals `t`; the boolean reports whether any
option matched. -/
def deselectByLabel (sl : SelectList) (t : String) : SelectList × Bool :=
  ({ sl with options := (sl.options.map
      (fun o => if o.label == t then { o with selected := false } else o)) },
   sl.options.any (fun o => o.label == t))

/-- The currently selected options in document order
(the Selenium `all_selected_options`). -/
def selectedOptions (sl : SelectList) : List SelOption :=
  sl.options.filter (fun o => o.selected)

/-- `_get_values_for_options`: project options to their `value` attributes. -/
def getValuesForOptions (options : List SelOption) : List String :=
  options.map SelOption.value

/-- `_get_labels_for_options`: project options to their visible texts. -/
def getLabelsForOptions (options : List SelOption) : List String :=
  options.map SelOption.label

/-- The outcome of a select-list keyword call: the final DOM state, the
warning messages logged via `self.warn`, and the raised error message
(`none` when the keyword returned normally). -/
structure KwResult where
  state : SelectList
  warnings : List String
  error : Option String
  deriving Repr, DecidableEq

/-- One loop iteration of `select_from_list`: `try select_by_value` and on
any exception `try select_by_visible_text`; the boolean is `false` when
both raised, in which case the item is appended to `non_existing_items`
and the state is unchanged. -/
def selectItem (sl : SelectList) (item : String) : SelectList × Bool :=
  match selectByValue sl item with
  | some sl2 => (sl2, true)
  | none =>
      match selectByLabel sl item with
      | some sl2 => (sl2, true)
      | none => (sl, false)

/-- The `select_from_list` loop over `items`, accumulating the state and
the `non_existing_items` list in order. -/
def selectItemsLoop (sl : SelectList) (items : List String) :
    SelectList × List String :=
  items.foldl
    (fun acc item =>
      let r := selectItem acc.1 item
      (r.1, if r.2 then acc.2 else acc.2 ++ [item]))
    (sl, [])

/-- Keyword `select_from_list(locator, *items)`
(selectelement.py lines 188-238).  With no items it selects every option
index in ascending order.  Otherwise each item is tried by value then by
label; afterwards, `if any(non_existing_items)` (Python truthiness: some
unmatched item is a non-empty string) the multi-select branch raises
listing all unmatched items, and the single-select branch warns about
`non_existing_items[:-1]` (when some of those is non-empty) and raises iff
the last given item is among the unmatched ones. -/
def selectFromList (sl : SelectList) (locator : String) (items : List String) :
    KwResult :=
  if items.isEmpty then
    { state := (List.range sl.options.length).foldl selectAt sl
      warnings := []
      error := none }
  else
    let loop := selectItemsLoop sl items
    let st := loop.1
    let nonExisting := loop.2
    if pyAny nonExisting then
      if sl.multiple then
        { state := st
          warnings := []
          error := some ("Options " ++ sq ++ joinComma nonExisting ++ sq ++
            " not in list " ++ sq ++ locator ++ sq ++ ".") }
      else
        let warns :=
          if pyAny nonExisting.dropLast then
            ["Option(s) " ++ sq ++ joinComma nonExisting.dropLast ++ sq ++
              " not found within list " ++ sq ++ locator ++ sq ++ "."]
          else []
        if !items.isEmpty && nonExisting.contains (items.getLastD "") then
          { state := st
            warnings := warns
            error := some ("Option " ++ sq ++ items.getLastD "" ++ sq ++
              " not in list " ++ sq ++ locator ++ sq ++ ".") }
        else
          { state := st, warnings := warns, error := none }
    else
      { state := st, warnings := [], error := none }

/-- Keyword `select_all_from_list(locator)`
(selectelement.py lines 171-185): raises a `RuntimeError` on a
single-select list, otherwise calls `select_by_index(i)` for
`i in range(len(select.options))`; on success the second component records
the indices selected, in call order. -/
def selectAllFromList (sl : SelectList) :
    Except String (SelectList × List Nat) :=
  if !sl.multiple then
    .error ("Keyword " ++ sq ++ "Select all from list" ++ sq ++
      " works only for multiselect lists.")
  else
    .ok ((List.range sl.options.length).foldl selectAt sl,
      List.range sl.options.length)

/-- Keyword `unselect_from_list(locator, *items)`
(selectelement.py lines 292-328): raises a `RuntimeError` on a
single-select list (before looking at `items`); with no items calls
`deselect_all`; otherwise for each item attempts `deselect_by_value` AND
`deselect_by_visible_text`, each wrapped in
`except NoSuchElementException: pass` (the matched flag of each attempt is
discarded). -/
def unselectFromList (sl : SelectList) (items : List String) :
    Except String SelectList :=
  if !sl.multiple then
    .error ("Keyword " ++ sq ++ "Unselect from list" ++ sq ++
      " works only for multiselect lists.")
  else if items.isEmpty then
    .ok { sl with options := clearSel sl.options }
  else
    .ok (items.foldl
      (fun st item => (deselectByLabel (deselectByValue st item).1 item).1)
      sl)

/-- Keyword `list_selection_should_be(locator, *items)`
(selectelement.py lines 103-128): returns normally when `items` is empty
and there is no selection; otherwise raises the mismatch `AssertionError`
when some item is in neither the selected values nor the selected labels,
or when some selected option has both its value and its label outside
`items`. -/
def listSelectionShouldBe (sl : SelectList) (locator : String)
    (items : List String) : Except String Unit :=
  let options := selectedOptions sl
  if items.isEmpty && options.length == 0 then
    .ok ()
  else
    let selectedValues := getValuesForOptions options
    let selectedLabels := getLabelsForOptions options
    let err := "List " ++ sq ++ locator ++ sq ++ " should have had selection [ " ++
      String.intercalate " | " items ++ " ] but it was [ " ++
      String.intercalate " | " selectedLabels ++ " ]"
    if items.any (fun item => !((selectedValues ++ selectedLabels).contains item)) then
      .error err
    else if (selectedValues.zip selectedLabels).any
        (fun p => !(items.contains p.1) && !(items.contains p.2)) then
      .error err
    else
      .ok ()

/-- Keyword `get_selected_list_values(locator)`
(selectelement.py lines 87-100): raises a `ValueError` when there is no
selection — the Python source writes the format string
`Select list with locator %s does not have any selected values`
without applying `% locator`, so the message contains the two literal
characters `%s` and not the locator. -/
def getSelectedListValues (sl : SelectList) (locator : String) :
    Except String (List String) :=
  let options := selectedOptions sl
  if options.isEmpty then
    .error ("Select list with locator " ++ sq ++ "%s" ++ sq ++
      " does not have any selected values")
  else
    .ok (getValuesForOptions options)

/-! ## Form element keywords (formelement.py) -/

/-- Keyword `select_checkbox(locator)` (formelement.py lines 91-101):
clicks the checkbox iff it is not selected.  A checkbox is its selected
state (a `Bool`); a click toggles it.  Returns the new state and the
number of clicks issued. -/
def selectCheckbox (state : Bool) : Bool × Nat :=
  if !state then (!state, 1) else (state, 0)

/-- Keyword `unselect_checkbox(locator)` (formelement.py lines 104-114):
clicks the checkbox iff it is selected. -/
def unselectCheckbox (state : Bool) : Bool × Nat :=
  if state then (!state, 1) else (state, 0)

/-- Keyword `checkbox_should_be_selected(locator)`
(formelement.py lines 41-51). -/
def checkboxShouldBeSelected (locator : String) (state : Bool) :
    Except String Unit :=
  if !state then
    .error ("Checkbox " ++ sq ++ locator ++ sq ++
      " should have been selected but was not.")
  else
    .ok ()

/-- One radio `<input>` of a group: its selected state and the string its
`value` attribute reads as (WebDriver never reports a null `value`
property for an input element). -/
structure RadioButton where
  selected : Bool
  value : String
  deriving Repr, DecidableEq

/-- `_get_value_from_radio_buttons(elements)`
(formelement.py lines 391-395): the `value` attribute of the first element
reporting selected, else `None`. -/
def getValueFromRadioButtons : List RadioButton → Option String
  | [] => none
  | b :: bs => if b.selected then some b.value else getValueFromRadioButtons bs

/-- Keyword `radio_button_should_not_be_selected(group_name)`
(formelement.py lines 158-170): raises iff the group state query
returned a value that `is not None`. -/
def radioButtonShouldNotBeSelected (groupName : String)
    (elements : List RadioButton) : Except String Unit :=
  match getValueFromRadioButtons elements with
  | some v =>
      .error ("Radio button group " ++ sq ++ groupName ++ sq ++
        " should not have had selection, but " ++ sq ++ v ++ sq ++
        " was selected.")
  | none => .ok ()

/-- The outcome of the two locator probes `click_button` and the button
presence keywords perform: whether `find_element(locator, tag=input)`
finds something and whether `find_element(locator, tag=button)` does. -/
structure ButtonProbes where
  inputFound : Bool
  buttonFound : Bool
  deriving Repr, DecidableEq

/-- The tag through which `click_button` reached the element it clicked. -/
inductive ClickedTag where
  | input
  | button
  deriving Repr, DecidableEq

/-- Keyword `click_button(locator)` (formelement.py lines 322-332):
`find_element(locator, tag=input, required=False)`; when that is falsy,
`find_element(locator, tag=button)` (which raises `ElementNotFound` when
nothing matches); then clicks the element found. -/
def clickButton (p : ButtonProbes) : Except String ClickedTag :=
  if p.inputFound then .ok .input
  else if p.buttonFound then .ok .button
  else .error "ElementNotFound"

/-- Keyword `page_should_contain_button(locator)`
(formelement.py lines 335-349): asserts the page contains an
`input`-tagged match and, if that assertion fails, asserts it contains a
`button`-tagged match. -/
def pageShouldContainButton (p : ButtonProbes) : Except String Unit :=
  if p.inputFound then .ok ()
  else if p.buttonFound then .ok ()
  else .error "page should have contained button"

/-- Keyword `page_should_not_contain_button(locator)`
(formelement.py lines 352-364): asserts the page contains no
`button`-tagged match, then asserts it contains no `input`-tagged match. -/
def pageShouldNotContainButton (p : ButtonProbes) : Except String Unit :=
  if p.buttonFound then .error "page should not have contained button"
  else if p.inputFound then .error "page should not have contained input"
  else .ok ()

/-- Does `needle` occur as a contiguous substring of `hay` (on character
lists)?  Used to state what an error message does or does not contain. -/
def containsSub (needle : List Char) : List Char → Bool
  | [] => needle.isEmpty
  | c :: t => needle.isPrefixOf (c :: t) || containsSub needle t

/-! ## Helper lemmas -/

theorem selectAt_multiple (sl : SelectList) (i : Nat) :
    (selectAt sl i).multiple = sl.multiple := by
  unfold selectAt; split <;> rfl

theorem foldl_selectAt_multiple (xs : List Nat) (sl : SelectList) :
    (xs.foldl selectAt sl).multiple = sl.multiple := by
  induction xs generalizing sl with
  | nil => rfl
  | cons x xs ih => simpa [List.foldl_cons, selectAt_multiple] using ih (selectAt sl x)

theorem markSel_get? (l : List SelOption) (j i : Nat) :
    (markSel l j)[i]? =
      l[i]?.map (fun o => if i = j then { o with selected := true } else o) := by
  induction l generalizing j i with
  | nil => simp [markSel]
  | cons o os ih =>
      cases j with
      | zero =>
          cases i with
          | zero => simp [markSel]
          | succ i => simp [markSel, Nat.succ_ne_zero]
      | succ j =>
          cases i with
          | zero => simp [markSel, (Nat.succ_ne_zero j).symm]
          | succ i => simpa [markSel, Nat.succ_inj] using ih j i

theorem clearSel_get? (l : List SelOption) (i : Nat) :
    (clearSel l)[i]? = l[i]?.map (fun o => { o with selected := false }) := by
  induction l generalizing i with
  | nil => simp [clearSel]
  | cons o os ih =>
      cases i with
      | zero => simp [clearSel]
      | succ i => simpa [clearSel] using ih i

theorem clearSel_markSel (l : List SelOption) (j : Nat) :
    clearSel (markSel l j) = clearSel l := by
  induction l generalizing j with
  | nil => simp [markSel]
  | cons o os ih =>
      cases j with
      | zero => simp [markSel, clearSel]
      | succ j => simp [markSel, clearSel, ih j]

theorem clearSel_idem (l : List SelOption) :
    clearSel (clearSel l) = clearSel l := by
  induction l with
  | nil => rfl
  | cons o os ih => simp [clearSel, ih]

theorem clearSel_eq_map (l : List SelOption) :
    clearSel l = l.map (fun o => { o with selected := false }) := by
  induction l with
  | nil => rfl
  | cons o os ih => simp [clearSel, ih]

theorem selectAt_selectAt_single (sl : SelectList) (j i : Nat)
    (h : sl.multiple = false) :
    selectAt (selectAt sl j) i = selectAt sl i := by
  simp [selectAt, h, clearSel_markSel, clearSel_idem]

theorem foldl_selectAt_single_concat (xs : List Nat) (x : Nat) (sl : SelectList)
    (h : sl.multiple = false) :
    ((xs ++ [x]).foldl selectAt sl) = selectAt sl x := by
  induction xs generalizing sl with
  | nil => rfl
  | cons y ys ih =>
      have hm : (selectAt sl y).multiple = false := by rw [selectAt_multiple]; exact h
      calc ((y :: ys ++ [x]).foldl selectAt sl)
          = ((ys ++ [x]).foldl selectAt (selectAt sl y)) := by simp
        _ = selectAt (selectAt sl y) x := ih (selectAt sl y) hm
        _ = selectAt sl x := selectAt_selectAt_single sl y x h

theorem selectAt_get?_multi (sl : SelectList) (j i : Nat)
    (h : sl.multiple = true) :
    (selectAt sl j).options[i]? =
      sl.options[i]?.map (fun o => if i = j then { o with selected := true } else o) := by
  simp [selectAt, h, markSel_get?]

theorem foldl_selectAt_range_multi (sl : SelectList) (h : sl.multiple = true)
    (k i : Nat) :
    ((List.range k).foldl selectAt sl).options[i]? =
      sl.options[i]?.map
        (fun o => if i < k then { o with selected := true } else o) := by
  induction k with
  | zero => simp
  | succ k ih =>
      have hm : ((List.range k).foldl selectAt sl).multiple = true := by
        rw [foldl_selectAt_multiple]; exact h
      rw [List.range_succ, List.foldl_append]
      simp only [List.foldl_cons, List.foldl_nil]
      rw [selectAt_get?_multi _ _ _ hm, ih]
      cases hgo : sl.options[i]? with
      | none => rfl
      | some o =>
          by_cases h1 : i < k
          · have h2 : i < k + 1 := Nat.lt_succ_of_lt h1
            have h3 : i ≠ k := Nat.ne_of_lt h1
            simp [h1, h2, h3]
          · by_cases h4 : i = k
            · simp [h1, h4, Nat.lt_succ_self]
            · have h5 : ¬ i < k + 1 := by omega
              simp [h1, h4, h5]

theorem foldl_selectAt_range_single (sl : SelectList) (h : sl.multiple = false)
    (i : Nat) :
    ((List.range sl.options.length).foldl selectAt sl).options[i]? =
      sl.options[i]?.map
        (fun o => { o with selected := decide (i + 1 = sl.options.length) }) := by
  cases hn : sl.options.length with
  | zero =>
      have hempty : sl.options = [] := List.length_eq_zero.mp hn
      simp [hempty]
  | succ m =>
      rw [List.range_succ, foldl_selectAt_single_concat _ _ _ h]
      simp only [selectAt, h, Bool.false_eq_true, if_false, markSel_get?,
        clearSel_get?, Option.map_map]
      cases hgo : sl.options[i]? with
      | none => rfl
      | some o =>
          by_cases him : i = m
          · simp [Function.comp, him]
          · have : ¬ (i + 1 = m + 1) := by omega
            simp [Function.comp, him, this]

theorem deselStep_eq (st : SelectList) (it : String) :
    (deselectByLabel (deselectByValue st it).1 it).1 =
      { st with options := (st.options.map
          (fun o => { o with selected :=
            o.selected && !(o.value == it || o.label == it) })) } := by
  simp only [deselectByValue, deselectByLabel, List.map_map]
  congr 1
  apply List.map_congr_left
  intro o _
  by_cases h1 : o.value == it <;> by_cases h2 : o.label == it <;>
    simp [Function.comp, h1, h2]

theorem foldl_desel_eq (items : List String) (sl : SelectList) :
    items.foldl
        (fun st item => (deselectByLabel (deselectByValue st item).1 item).1) sl =
      { sl with options := (sl.options.map
          (fun o => { o with selected :=
            o.selected && !(items.any (fun it => o.value == it || o.label == it)) })) } := by
  induction items generalizing sl with
  | nil => simp
  | cons it rest ih =>
      rw [List.foldl_cons]
      show rest.foldl _ ((deselectByLabel (deselectByValue sl it).1 it).1) = _
      rw [deselStep_eq, ih]
      simp only [List.map_map]
      congr 1
      apply List.map_congr_left
      intro o _
      simp only [Function.comp, List.any_cons, Bool.not_or, Bool.and_assoc]

/-! ## Claim theorems -/

/-- C4: `select_all_from_list` raises the multiplicity `RuntimeError` on a
single-select list (the error is raised before any `select_by_index` call,
so nothing is selected), and on a multi-select list it calls
`select_by_index` on every index in ascending order `0, 1, …, n-1`
(the recorded call trace is `List.range n`, whose `j`-th entry is `j`),
after which every option is selected and values/labels are unchanged. -/
theorem selectAllFromList_spec (sl : SelectList) :
    (sl.multiple = false →
      selectAllFromList sl = .error ("Keyword " ++ sq ++ "Select all from list" ++
        sq ++ " works only for multiselect lists.")) ∧
    (sl.multiple = true →
      ∃ st, selectAllFromList sl = .ok (st, List.range sl.options.length) ∧
        st.multiple = true ∧
        (∀ j : Nat, j < sl.options.length →
          (List.range sl.options.length)[j]? = some j) ∧
        (∀ i : Nat, st.options[i]? =
          sl.options[i]?.map (fun o => { o with selected := true }))) := by
  constructor
  · intro h
    simp [selectAllFromList, h]
  · intro h
    refine ⟨(List.range sl.options.length).foldl selectAt sl, ?_, ?_, ?_, ?_⟩
    · simp [selectAllFromList, h]
    · rw [foldl_selectAt_multiple]; exact h
    · intro j hj
      simp [List.getElem?_range hj]
    · intro i
      rw [foldl_selectAt_range_multi sl h]
      cases hgo : sl.options[i]? with
      | none => rfl
      | some o =>
          have hi : i < sl.options.length := by
            by_contra hcon
            have : sl.options[i]? = none := List.getElem?_eq_none (Nat.le_of_not_lt hcon)
            rw [this] at hgo
            exact Option.noConfusion hgo
          simp [hi]

/-- Witness for C4 at concrete lists: a single-select list raises the
multiplicity error and a one-option multi-select list gets every option
selected with trace `[0]`. -/
theorem selectAllFromList_spec_witness :
    (selectAllFromList ⟨[⟨"a", "A", false⟩], false⟩ =
      .error ("Keyword " ++ sq ++ "Select all from list" ++ sq ++
        " works only for multiselect lists.")) ∧
    (∃ st, selectAllFromList ⟨[⟨"a", "A", false⟩], true⟩ =
        .ok (st, List.range (SelectList.mk [⟨"a", "A", false⟩] true).options.length) ∧
      st.multiple = true ∧
      (∀ j : Nat, j < (SelectList.mk [⟨"a", "A", false⟩] true).options.length →
        (List.range (SelectList.mk [⟨"a", "A", false⟩] true).options.length)[j]? = some j) ∧
      (∀ i : Nat, st.options[i]? =
        (SelectList.mk [⟨"a", "A", false⟩] true).options[i]?.map
          (fun o => { o with selected := true }))) :=
  ⟨(selectAllFromList_spec ⟨[⟨"a", "A", false⟩], false⟩).1 rfl,
   (selectAllFromList_spec ⟨[⟨"a", "A", false⟩], true⟩).2 rfl⟩

/-- C5: `unselect_from_list` raises the multiplicity `RuntimeError` on a
single-select list regardless of the given items (including none); on a
multi-select list an empty item sequence runs `deselect_all`, clearing
every selection, and otherwise each item is attempted both by value and by
label, each attempt wrapped in `except NoSuchElementException: pass`, so
the keyword never raises on a multi-select list and an option ends up
deselected exactly when some given item equals its value or its label. -/
theorem unselectFromList_spec (sl : SelectList) (items : List String) :
    (sl.multiple = false →
      unselectFromList sl items = .error ("Keyword " ++ sq ++ "Unselect from list" ++
        sq ++ " works only for multiselect lists.")) ∧
    (sl.multiple = true → items = [] →
      unselectFromList sl items =
        .ok { sl with options := (sl.options.map
          (fun o => { o with selected := false })) }) ∧
    (sl.multiple = true → items ≠ [] →
      unselectFromList sl items =
        .ok { sl with options := (sl.options.map
          (fun o => { o with selected :=
            o.selected && !(items.any (fun it => o.value == it || o.label == it)) })) }) := by
  refine ⟨?_, ?_, ?_⟩
  · intro h
    simp [unselectFromList, h]
  · intro h he
    subst he
    simp [unselectFromList, h, clearSel_eq_map]
  · intro h hne
    have hemp : items.isEmpty = false := by
      simpa [List.isEmpty_iff] using hne
    simp [unselectFromList, h, hemp, foldl_desel_eq]

/-- Witness for C5 at concrete lists: the single-select error, the
empty-items clear-all on a multi-select list, and the by-value-or-label
deselection of `x` on a multi-select list. -/
theorem unselectFromList_spec_witness :
    (unselectFromList ⟨[⟨"x", "X", true⟩], false⟩ ["x"] =
      .error ("Keyword " ++ sq ++ "Unselect from list" ++ sq ++
        " works only for multiselect lists.")) ∧
    (unselectFromList ⟨[⟨"x", "X", true⟩, ⟨"y", "Y", true⟩], true⟩ [] =
      .ok { SelectList.mk [⟨"x", "X", true⟩, ⟨"y", "Y", true⟩] true with
        options := ((SelectList.mk [⟨"x", "X", true⟩, ⟨"y", "Y", true⟩] true).options.map
          (fun o => { o with selected := false })) }) ∧
    (unselectFromList ⟨[⟨"x", "X", true⟩, ⟨"y", "Y", true⟩], true⟩ ["x"] =
      .ok { SelectList.mk [⟨"x", "X", true⟩, ⟨"y", "Y", true⟩] true with
        options := ((SelectList.mk [⟨"x", "X", true⟩, ⟨"y", "Y", true⟩] true).options.map
          (fun o => { o with selected :=
            o.selected && !((["x"] : List String).any
              (fun it => o.value == it || o.label == it)) })) }) :=
  ⟨(unselectFromList_spec ⟨[⟨"x", "X", true⟩], false⟩ ["x"]).1 rfl,
   (unselectFromList_spec ⟨[⟨"x", "X", true⟩, ⟨"y", "Y", true⟩], true⟩ []).2.1 rfl rfl,
   (unselectFromList_spec ⟨[⟨"x", "X", true⟩, ⟨"y", "Y", true⟩], true⟩ ["x"]).2.2 rfl
     (by decide)⟩

/-- C10: `select_from_list` invoked with no items performs no `is_multiple`
check: it returns without error or warning on a single-select list and
iterates `select_by_index` over every option index in ascending order, so
the net effect on a single-select list is that exactly the last option
(index `n-1`) ends up selected, values and labels unchanged. -/
theorem selectFromList_no_items_single (sl : SelectList) (locator : String)
    (h : sl.multiple = false) :
    (selectFromList sl locator []).error = none ∧
    (selectFromList sl locator []).warnings = [] ∧
    ∀ i : Nat, (selectFromList sl locator []).state.options[i]? =
      sl.options[i]?.map
        (fun o => { o with selected := decide (i + 1 = sl.options.length) }) := by
  refine ⟨rfl, rfl, ?_⟩
  intro i
  show ((List.range sl.options.length).foldl selectAt sl).options[i]? = _
  exact foldl_selectAt_range_single sl h i

/-- Membership of an item in the concatenation of the selected values and
selected labels says exactly that some selected option matches it by value
or by label. -/
theorem mem_values_append_labels (sl : SelectList) (item : String) :
    item ∈ (getValuesForOptions (selectedOptions sl) ++
        getLabelsForOptions (selectedOptions sl)) ↔
      ∃ o ∈ selectedOptions sl, o.value = item ∨ o.label = item := by
  simp only [List.mem_append, getValuesForOptions, getLabelsForOptions,
    List.mem_map]
  constructor
  · rintro (⟨o, ho, rfl⟩ | ⟨o, ho, rfl⟩)
    · exact ⟨o, ho, Or.inl rfl⟩
    · exact ⟨o, ho, Or.inr rfl⟩
  · rintro ⟨o, ho, rfl | rfl⟩
    · exact Or.inl ⟨o, ho, rfl⟩
    · exact Or.inr ⟨o, ho, rfl⟩

/-- C3: `list_selection_should_be` returns normally exactly when every
target item matches some currently selected option by value or by label
and every currently selected option matches some target item by value or
by label; in particular with no target items it succeeds exactly when the
list has no selection. -/
theorem listSelectionShouldBe_spec (sl : SelectList) (locator : String)
    (items : List String) :
    (listSelectionShouldBe sl locator items = .ok () ↔
      ((∀ item ∈ items, ∃ o ∈ selectedOptions sl, o.value = item ∨ o.label = item) ∧
       (∀ o ∈ selectedOptions sl, o.value ∈ items ∨ o.label ∈ items))) ∧
    (items = [] →
      (listSelectionShouldBe sl locator items = .ok () ↔ selectedOptions sl = [])) := by
  have hmem : ∀ (x : String) (L : List String), L.contains x = true ↔ x ∈ L := by
    intro x L
    simp
  have hP1 : (items.any (fun item =>
        !((getValuesForOptions (selectedOptions sl) ++
           getLabelsForOptions (selectedOptions sl)).contains item)) = false) ↔
      (∀ item ∈ items, ∃ o ∈ selectedOptions sl, o.value = item ∨ o.label = item) := by
    rw [List.any_eq_false]
    constructor
    · intro h item hi
      have h1 := h item hi
      have h2 : ((getValuesForOptions (selectedOptions sl) ++
          getLabelsForOptions (selectedOptions sl)).contains item) = true := by
        cases hc : ((getValuesForOptions (selectedOptions sl) ++
            getLabelsForOptions (selectedOptions sl)).contains item) with
        | true => rfl
        | false => exact absurd (by rw [hc]; rfl) h1
      exact (mem_values_append_labels sl item).mp ((hmem item _).mp h2)
    · intro h item hi
      have h2 : item ∈ (getValuesForOptions (selectedOptions sl) ++
          getLabelsForOptions (selectedOptions sl)) :=
        (mem_values_append_labels sl item).mpr (h item hi)
      have h3 : ((getValuesForOptions (selectedOptions sl) ++
          getLabelsForOptions (selectedOptions sl)).contains item) = true :=
        (hmem item _).mpr h2
      rw [h3]
      simp
  have hP2 : (((getValuesForOptions (selectedOptions sl)).zip
        (getLabelsForOptions (selectedOptions sl))).any
        (fun p => !(items.contains p.1) && !(items.contains p.2)) = false) ↔
      (∀ o ∈ selectedOptions sl, o.value ∈ items ∨ o.label ∈ items) := by
    rw [getValuesForOptions, getLabelsForOptions, List.zip_map']
    simp [List.any_eq_false]
    refine ⟨fun h o ho => ?_, fun h o ho => ?_⟩ <;> have hoo := h o ho <;> tauto
  have key : listSelectionShouldBe sl locator items = .ok () ↔
      ((∀ item ∈ items, ∃ o ∈ selectedOptions sl, o.value = item ∨ o.label = item) ∧
       (∀ o ∈ selectedOptions sl, o.value ∈ items ∨ o.label ∈ items)) := by
    cases hb : (items.isEmpty && ((selectedOptions sl).length == 0)) with
    | true =>
        obtain ⟨ha, hlen⟩ : items.isEmpty = true ∧ ((selectedOptions sl).length == 0) = true := by
          simpa using hb
        have h1 : items = [] := List.isEmpty_iff.mp ha
        have h2 : selectedOptions sl = [] := List.length_eq_zero.mp (by simpa using hlen)
        subst h1
        simp [listSelectionShouldBe, h2]
    | false =>
        have hred : listSelectionShouldBe sl locator items =
            (if (items.any (fun item =>
                !((getValuesForOptions (selectedOptions sl) ++
                   getLabelsForOptions (selectedOptions sl)).contains item))) then
              Except.error ("List " ++ sq ++ locator ++ sq ++ " should have had selection [ " ++
                String.intercalate " | " items ++ " ] but it was [ " ++
                String.intercalate " | " (getLabelsForOptions (selectedOptions sl)) ++ " ]")
            else if (((getValuesForOptions (selectedOptions sl)).zip
                (getLabelsForOptions (selectedOptions sl))).any
                (fun p => !(items.contains p.1) && !(items.contains p.2))) then
              Except.error ("List " ++ sq ++ locator ++ sq ++ " should have had selection [ " ++
                String.intercalate " | " items ++ " ] but it was [ " ++
                String.intercalate " | " (getLabelsForOptions (selectedOptions sl)) ++ " ]")
            else Except.ok ()) := by
          simp only [listSelectionShouldBe, hb]
          rfl
        rw [hred]
        cases ha1 : (items.any (fun item =>
            !((getValuesForOptions (selectedOptions sl) ++
               getLabelsForOptions (selectedOptions sl)).contains item))) with
        | true =>
            constructor
            · intro hcon
              exact absurd hcon (by simp)
            · rintro ⟨p1, p2⟩
              rw [hP1.mpr p1] at ha1
              exact Bool.noConfusion ha1
        | false =>
            cases ha2 : (((getValuesForOptions (selectedOptions sl)).zip
                (getLabelsForOptions (selectedOptions sl))).any
                (fun p => !(items.contains p.1) && !(items.contains p.2))) with
            | true =>
                constructor
                · intro hcon
                  exact absurd hcon (by simp)
                · rintro ⟨p1, p2⟩
                  rw [hP2.mpr p2] at ha2
                  exact Bool.noConfusion ha2
            | false =>
                exact iff_of_true (by simp) ⟨hP1.mp ha1, hP2.mp ha2⟩
  refine ⟨key, fun h0 => ?_⟩
  subst h0
  rw [key]
  constructor
  · rintro ⟨-, h2⟩
    refine List.eq_nil_iff_forall_not_mem.mpr (fun o ho => ?_)
    have := h2 o ho
    simp at this
  · intro hS
    refine ⟨fun item hi => absurd hi (by simp), fun o ho => ?_⟩
    rw [hS] at ho
    exact absurd ho (by simp)

/-- Witness for C10 at a two-option single-select list whose first option
starts out selected: no error, no warning, and afterwards only the last
option is selected. -/
theorem selectFromList_no_items_single_witness :
    (selectFromList ⟨[⟨"a", "A", true⟩, ⟨"b", "B", false⟩], false⟩ "w" []).error = none ∧
    (selectFromList ⟨[⟨"a", "A", true⟩, ⟨"b", "B", false⟩], false⟩ "w" []).warnings = [] ∧
    ∀ i : Nat, (selectFromList ⟨[⟨"a", "A", true⟩, ⟨"b", "B", false⟩], false⟩ "w" []).state.options[i]? =
      (SelectList.mk [⟨"a", "A", true⟩, ⟨"b", "B", false⟩] false).options[i]?.map
        (fun o => { o with selected := (decide
          (i + 1 = (SelectList.mk [⟨"a", "A", true⟩, ⟨"b", "B", false⟩] false).options.length)) }) :=
  selectFromList_no_items_single ⟨[⟨"a", "A", true⟩, ⟨"b", "B", false⟩], false⟩ "w" rfl

/-- Witness for C3: on a multi-select list with `a` selected and `b` not,
the target `["a"]` passes, and with no targets an unselected list passes. -/
theorem listSelectionShouldBe_spec_witness :
    (listSelectionShouldBe ⟨[⟨"a", "A", true⟩, ⟨"b", "B", false⟩], true⟩ "lst" ["a"] =
      .ok ()) ∧
    (listSelectionShouldBe ⟨[⟨"a", "A", false⟩], true⟩ "lst" [] = .ok ()) :=
  ⟨(listSelectionShouldBe_spec ⟨[⟨"a", "A", true⟩, ⟨"b", "B", false⟩], true⟩ "lst"
      ["a"]).1.mpr (by decide),
   ((listSelectionShouldBe_spec ⟨[⟨"a", "A", false⟩], true⟩ "lst" []).2 rfl).mpr
     (by decide)⟩

/-- Counterexample to C6 as stated: on a checkbox that is already
selected, calling `select_checkbox` twice issues zero clicks, not exactly
one — the "exactly one click" consequence only holds when the checkbox
starts unselected. -/
theorem selectCheckbox_twice_not_one_click :
    (decide ((selectCheckbox true).2 +
      (selectCheckbox (selectCheckbox true).1).2 = 1)) = false := by
  decide

/-- C6 (amended): `select_checkbox` clicks exactly when the checkbox is
not selected and `unselect_checkbox` clicks exactly when it is selected;
two successive `select_checkbox` calls issue at most one click — exactly
one when the checkbox starts unselected, zero when it starts selected —
and the second call never clicks. -/
theorem checkbox_click_spec (s : Bool) :
    ((selectCheckbox s).2 = if s then 0 else 1) ∧
    ((selectCheckbox s).1 = true) ∧
    ((unselectCheckbox s).2 = if s then 1 else 0) ∧
    ((unselectCheckbox s).1 = false) ∧
    ((selectCheckbox (selectCheckbox s).1).2 = 0) ∧
    ((selectCheckbox s).2 + (selectCheckbox (selectCheckbox s).1).2 =
      if s then 0 else 1) := by
  cases s <;> decide

/-- C7: the radio-group state query returns the `value` of the first
element reporting selected (`none` when no element is selected), and
`radio_button_should_not_be_selected` succeeds exactly when no button of
the group is selected — so any selected button, whatever its value string,
makes it fail. -/
theorem radioButton_value_spec (groupName : String)
    (elements : List RadioButton) :
    (getValueFromRadioButtons elements =
      (elements.find? (fun b => b.selected)).map RadioButton.value) ∧
    (radioButtonShouldNotBeSelected groupName elements = .ok () ↔
      ∀ b ∈ elements, b.selected = false) ∧
    ((∃ b ∈ elements, b.selected = true) →
      ∃ e, radioButtonShouldNotBeSelected groupName elements = .error e) := by
  have h1 : getValueFromRadioButtons elements =
      (elements.find? (fun b => b.selected)).map RadioButton.value := by
    induction elements with
    | nil => rfl
    | cons b bs ih =>
        cases hsel : b.selected with
        | true => simp [getValueFromRadioButtons, hsel, List.find?_cons_of_pos]
        | false => simpa [getValueFromRadioButtons, hsel,
            List.find?_cons_of_neg] using ih
  have h2 : radioButtonShouldNotBeSelected groupName elements = .ok () ↔
      ∀ b ∈ elements, b.selected = false := by
    cases hg : getValueFromRadioButtons elements with
    | some v =>
        have hfind : (elements.find? (fun b => b.selected)).map RadioButton.value =
            some v := by
          rw [← h1]
          exact hg
        obtain ⟨b, hb⟩ : ∃ b, elements.find? (fun b => b.selected) = some b := by
          cases hf : elements.find? (fun b => b.selected) with
          | none => rw [hf] at hfind; exact Option.noConfusion hfind
          | some b => exact ⟨b, rfl⟩
        have hmem := List.mem_of_find?_eq_some hb
        have hsel : b.selected = true := List.find?_some hb
        constructor
        · intro hok
          have herr : radioButtonShouldNotBeSelected groupName elements =
              .error ("Radio button group " ++ sq ++ groupName ++ sq ++
                " should not have had selection, but " ++ sq ++ v ++ sq ++
                " was selected.") := by
            simp [radioButtonShouldNotBeSelected, hg]
          rw [herr] at hok
          exact Except.noConfusion hok
        · intro hall
          exact absurd hsel (by simp [hall b hmem])
    | none =>
        have hfind : elements.find? (fun b => b.selected) = none := by
          have hh := hg
          rw [h1] at hh
          cases hf : elements.find? (fun b => b.selected) with
          | none => rfl
          | some b => rw [hf] at hh; exact Option.noConfusion hh
        constructor
        · intro _ b hb
          have := List.find?_eq_none.mp hfind b hb
          simpa using this
        · intro _
          simp [radioButtonShouldNotBeSelected, hg]
  refine ⟨h1, h2, ?_⟩
  rintro ⟨b, hb, hsel⟩
  cases he : radioButtonShouldNotBeSelected groupName elements with
  | error e => exact ⟨e, rfl⟩
  | ok u =>
      cases u
      have := h2.mp he b hb
      rw [this] at hsel
      exact Bool.noConfusion hsel

/-- Witness for C7: a group whose only button is selected with an
empty-string `value` still makes `radio_button_should_not_be_selected`
raise — `some ""` is not `none`. -/
theorem radioButton_value_spec_witness :
    ∃ e, radioButtonShouldNotBeSelected "g" [⟨true, ""⟩] = .error e :=
  (radioButton_value_spec "g" [⟨true, ""⟩]).2.2 ⟨⟨true, ""⟩, by simp, rfl⟩

/-- C8: `click_button` clicks through the `input` probe whenever it finds
something and falls back to the `button` probe only otherwise;
`page_should_contain_button` fails exactly when both probes fail;
`page_should_not_contain_button` succeeds exactly when both probes
confirm absence. -/
theorem button_probe_spec (p : ButtonProbes) :
    (clickButton p = .ok .input ↔ p.inputFound = true) ∧
    (clickButton p = .ok .button ↔ (p.inputFound = false ∧ p.buttonFound = true)) ∧
    ((∃ e, pageShouldContainButton p = .error e) ↔
      (p.inputFound = false ∧ p.buttonFound = false)) ∧
    (pageShouldNotContainButton p = .ok () ↔
      (p.buttonFound = false ∧ p.inputFound = false)) := by
  obtain ⟨i, b⟩ := p
  cases i <;> cases b <;>
    simp [clickButton, pageShouldContainButton, pageShouldNotContainButton]

/-- C1 (code bug, selectelement.py line 230): on a multi-select list whose
only option has value `a` and label `A`, the single given item `""`
matches no option by value and no option by label, yet `select_from_list`
raises nothing, because `any(non_existing_items)` is `False` when the only
unmatched item is the falsy string `""` — contradicting the very
docstring ("For a multi-selection list, an exception is raised for any and
all non-existing values"). -/
theorem selectFromList_multi_unmatched_empty_item_no_error :
    ((selectFromList ⟨[⟨"a", "A", false⟩], true⟩ "mylist" [""]).error = none) ∧
    ((selectFromList ⟨[⟨"a", "A", false⟩], true⟩ "mylist" [""]).warnings = []) ∧
    (((SelectList.mk [⟨"a", "A", false⟩] true).options.all
      (fun o => !(o.value == "") && !(o.label == ""))) = true) := by
  refine ⟨rfl, rfl, rfl⟩

/-- C2 (code bug, selectelement.py lines 230-238): on a single-select list
with one option (value `v1`, label `Label 1`), the call with items
`["v1", ""]` leaves `v1` selected and raises nothing although the LAST
given item `""` matches no option by value and no option by label: the
entire escalation block is guarded by `any(non_existing_items)`, which is
`False` because `""` is falsy in Python — contradicting the docstring
("An exception is raised for a single-selection list if the last value
does not exist in the list"). -/
theorem selectFromList_single_unmatched_last_empty_item_no_error :
    (selectFromList ⟨[⟨"v1", "Label 1", false⟩], false⟩ "single" ["v1", ""] =
      { state := ⟨[⟨"v1", "Label 1", true⟩], false⟩, warnings := [], error := none }) ∧
    (((SelectList.mk [⟨"v1", "Label 1", false⟩] false).options.all
      (fun o => !(o.value == "") && !(o.label == ""))) = true) := by
  refine ⟨rfl, rfl⟩

/-- C9 (code bug, selectelement.py line 99): `get_selected_list_values` on
an empty selection raises
`ValueError` with the literal format string shown below
without applying `% locator`, so the message contains the literal
characters `%s` and NOT the locator it was invoked with (here `mylist`);
the third conjunct checks that the locator WOULD be a substring of the
correctly formatted message, so `containsSub` is not trivially false. -/
theorem getSelectedListValues_error_omits_locator :
    (getSelectedListValues ⟨[⟨"a", "A", false⟩], false⟩ "mylist" =
      .error ("Select list with locator " ++ sq ++ "%s" ++ sq ++
        " does not have any selected values")) ∧
    (containsSub ("mylist".toList)
      (("Select list with locator " ++ sq ++ "%s" ++ sq ++
        " does not have any selected values").toList) = false) ∧
    (containsSub ("mylist".toList)
      (("Select list with locator " ++ sq ++ "mylist" ++ sq ++
        " does not have any selected values").toList) = true) := by
  refine ⟨rfl, by decide, by decide⟩

end SeleniumSpec
